import Mathlib

/-!
Verification of the libeufin integration-test harness
(src/integration-tests/util.py and src/integration-tests/test-ebics.py)
against its natural-language specification.

The Python code is shallowly embedded: JSON documents become an inductive
type, dictionary lookup and len() become total Lean functions that return
the Python exception where Python would raise, and each script fragment
becomes a function from its inputs (HTTP responses, probe outcomes, socket
state) to an explicit outcome (normal value, process exit with code and
printed diagnostics, or an uncaught exception).
-/

/-- JSON documents as the scripts see them after requests' resp.json():
objects keep field order, null maps to the Python value None. -/
inductive Json where
  | null
  | bool (b : Bool)
  | num (n : Int)
  | str (s : String)
  | arr (elems : List Json)
  | obj (fields : List (String × Json))

/-- Python exceptions the embedded fragments can raise. -/
inductive PyErr where
  | nameError (missing : String)
  | attributeError (attr : String)
  | typeError
deriving DecidableEq

/-- The diagnostics the scripts print, one constructor per print site
(kept structured rather than as formatted strings). -/
inductive Msg where
  | missingField (name : String)
  | portUnavailable (port : Nat)
  | bindExcInfo
  | uuidNotReceived
  | unexpectedTxCount
  | unexpectedTxCountShouldBe1
  | testPassed
  | nexusTimedOut
  | assertResponseDiagnostics
deriving DecidableEq

/-- Outcome of running a script fragment: a value, a process exit carrying
the exit code and the diagnostics printed on the way out, or an uncaught
Python exception (the interpreter then dies with a traceback). -/
inductive Outcome (α : Type) where
  | ok (a : α)
  | exited (code : Nat) (printed : List Msg)
  | raised (e : PyErr)

/-- Sequencing of script fragments: exits and uncaught exceptions
propagate, a value flows into the continuation. -/
def Outcome.bind : Outcome α → (α → Outcome β) → Outcome β
  | .ok a, f => f a
  | .exited c m, _ => .exited c m
  | .raised e, _ => .raised e

/-- True when the fragment did not complete normally. -/
def Outcome.isFatal : Outcome α → Bool
  | .ok _ => false
  | .exited _ _ => true
  | .raised _ => true

/-- Python dict lookup d.get(k): the value when the key is present, None
otherwise. A present JSON null is some Json.null (Python None as a value
is modelled by isPyNone below). -/
def Json.get (j : Json) (k : String) : Option Json :=
  match j with
  | .obj fields => fields.lookup k
  | _ => none

/-- Python membership test k in d on a dict. -/
def Json.hasKey (j : Json) (k : String) : Bool :=
  match j with
  | .obj fields => fields.any (fun p => p.1 == k)
  | _ => false

/-- The Python comparison v == None applied to the result of a dict .get:
true for a missing key and for a present JSON null (both are None). -/
def isPyNone : Option Json → Bool
  | none => true
  | some .null => true
  | some _ => false

/-- Python len() applied to the result of a dict .get: defined on lists,
strings and dicts; len(None) and len of a number or boolean raise
TypeError. -/
def pyLen : Option Json → Except PyErr Nat
  | some (.arr xs) => .ok xs.length
  | some (.str s) => .ok s.length
  | some (.obj fs) => .ok fs.length
  | _ => .error .typeError

/-- util.py lines 11-14: CheckJsonField holds a field name and a list of
nested checks. -/
inductive CheckJsonField where
  | mk (name : String) (nested : List CheckJsonField)

/-- util.py lines 16-21, translated exactly as written. When the field is
absent the check prints the diagnostic and calls sys.exit(1). When the
field is present the loop body reads self.nested_check, an attribute the
class never sets (the loop variable is nested_check), so the first
iteration raises AttributeError; with an empty nested list the loop body
never runs and the check returns normally. -/
def CheckJsonField.check : CheckJsonField → Json → Outcome Unit
  | .mk name nested, j =>
    if j.hasKey name then
      match nested with
      | [] => .ok ()
      | _ :: _ => .raised (.attributeError ("nested_check"))
    else
      .exited 1 [.missingField name]

/-- The set of locally bound TCP ports, standing in for the socket table
that bind and close act on. -/
structure NetState where
  bound : List Nat
deriving DecidableEq

/-- socket.bind on 0.0.0.0: fails when the port is already bound,
otherwise records the binding. -/
def bindSocket (st : NetState) (port : Nat) : Except Unit NetState :=
  if st.bound.contains port then .error () else .ok ⟨port :: st.bound⟩

/-- socket.close: releases the binding. -/
def closeSocket (st : NetState) (port : Nat) : NetState :=
  ⟨st.bound.erase port⟩

/-- util.py lines 31-40: bind a throwaway socket; on success close it and
return normally, on failure print the port diagnostic and the exception
class and exit 77. -/
def checkPort (st : NetState) (port : Nat) : Outcome NetState :=
  match bindSocket st port with
  | .ok st2 => .ok (closeSocket st2 port)
  | .error _ => .exited 77 [.portUnavailable port, .bindExcInfo]

/-- Two consecutive calls of checkPort on the same port, the second on the
socket state the first left behind. -/
def checkPortTwice (st : NetState) (port : Nat) : Outcome NetState :=
  match checkPort st port with
  | .ok st2 => checkPort st2 port
  | other => other

/-- The base64 alphabet, as the standard encoding used by Python's
base64.b64encode. -/
def base64Alphabet : List Char :=
  ("ABCDEFGHIJKLMNOPQRSTUVWXYZabcdefghijklmnopqrstuvwxyz0123456789+/").toList

/-- The base64 digit for a 6-bit value. -/
def b64char (n : Nat) : Char := base64Alphabet.getD n ('=')

/-- RFC 4648 base64 of a byte list, as Python's base64.b64encode computes
it (three bytes to four digits, = padding for a short final group). -/
def b64encodeBytes : List Nat → List Char
  | [] => []
  | [a] => [b64char (a / 4), b64char (a % 4 * 16), '=', '=']
  | [a, b] => [b64char (a / 4), b64char (a % 4 * 16 + b / 16), b64char (b % 16 * 4), '=']
  | a :: b :: c :: rest =>
      b64char (a / 4) :: b64char (a % 4 * 16 + b / 16) ::
      b64char (b % 16 * 4 + c / 64) :: b64char (c % 64) :: b64encodeBytes rest

/-- base64.b64encode(s.encode()).decode() for an ASCII string. -/
def b64encode (s : String) : String :=
  String.mk (b64encodeBytes (s.toList.map Char.toNat))

/-- test-ebics.py lines 16-18: the Basic authorization header of the
gateway user person with password y. -/
def USER_AUTHORIZATION_HEADER : String := "basic " ++ b64encode ("person:y")

/-- test-ebics.py lines 21-23: the Basic authorization header of the
gateway administrator admin with password x. -/
def ADMIN_AUTHORIZATION_HEADER : String := "basic " ++ b64encode ("admin:x")

/-- The two services the sequencer talks to. -/
inductive Host where
  | sandbox5000
  | gateway5001
deriving DecidableEq

/-- One HTTP request of the scenario: method, target service, URL path
split at the slashes, and the Authorization header value passed, if any. -/
structure Request where
  method : String
  host : Host
  path : List String
  auth : Option String
deriving DecidableEq

/-- The ordered scenario requests of test-ebics.py (steps 0.a through the
final transactions GET), with the Authorization header each call site
passes; uuid is the prepared-payment identifier the service returned. -/
def scenarioRequests (uuid : String) : List Request := [
  ⟨"POST", .sandbox5000, ["admin", "ebics", "host"], none⟩,
  ⟨"POST", .sandbox5000, ["admin", "ebics", "subscribers"], none⟩,
  ⟨"POST", .sandbox5000, ["admin", "ebics", "bank-accounts"], none⟩,
  ⟨"POST", .gateway5001, ["users"], some ADMIN_AUTHORIZATION_HEADER⟩,
  ⟨"POST", .gateway5001, ["bank-connections"], some USER_AUTHORIZATION_HEADER⟩,
  ⟨"POST", .gateway5001, ["bank-connections", "my-ebics", "ebics", "send-ini"],
    some USER_AUTHORIZATION_HEADER⟩,
  ⟨"POST", .gateway5001, ["bank-connections", "my-ebics", "ebics", "send-hia"],
    some USER_AUTHORIZATION_HEADER⟩,
  ⟨"POST", .gateway5001, ["bank-connections", "my-ebics", "ebics", "send-hpb"],
    some USER_AUTHORIZATION_HEADER⟩,
  ⟨"POST", .gateway5001, ["bank-connections", "my-ebics", "ebics", "download", "tsd"],
    some USER_AUTHORIZATION_HEADER⟩,
  ⟨"POST", .gateway5001, ["bank-connections", "my-ebics", "ebics", "import-accounts"],
    some USER_AUTHORIZATION_HEADER⟩,
  ⟨"POST", .gateway5001, ["bank-accounts", "savings", "fetch-transactions"],
    some USER_AUTHORIZATION_HEADER⟩,
  ⟨"GET", .gateway5001, ["bank-accounts", "savings", "transactions"],
    some USER_AUTHORIZATION_HEADER⟩,
  ⟨"POST", .gateway5001, ["bank-accounts", "savings", "payment-initiations"],
    some USER_AUTHORIZATION_HEADER⟩,
  ⟨"GET", .gateway5001, ["bank-accounts", "savings", "payment-initiations", uuid],
    some USER_AUTHORIZATION_HEADER⟩,
  ⟨"POST", .gateway5001, ["bank-accounts", "savings", "payment-initiations", uuid, "submit"],
    some USER_AUTHORIZATION_HEADER⟩,
  ⟨"POST", .gateway5001, ["bank-accounts", "savings", "fetch-transactions"],
    some USER_AUTHORIZATION_HEADER⟩,
  ⟨"GET", .gateway5001, ["bank-accounts", "savings", "transactions"],
    some USER_AUTHORIZATION_HEADER⟩]

/-- Endpoint classification from the spec, section 6: POST /users on the
gateway is the one admin-authorized endpoint. -/
def isAdminEndpoint (r : Request) : Bool :=
  r.host == .gateway5001 && r.path == ["users"]

/-- Endpoint classification from the spec, section 6: every gateway
endpoint other than /users that the scenario drives is a user endpoint. -/
def isUserEndpoint (r : Request) : Bool :=
  r.host == .gateway5001 && !(r.path == ["users"])

/-- An HTTP response as the sequencer sees it: the success classification
(requests' resp.ok) and the parsed JSON body. -/
structure HttpResponse where
  ok : Bool
  body : Json

/-- Modelled from the spec: assertResponse, the HTTP Response Assertion
Layer of section 4.4, is imported by test-ebics.py from util but its code
is not among the source files. Per the spec it inspects the status
classification, prints response diagnostics and terminates with a failing
exit code on failure, and returns the response unchanged on success. -/
def assertResponse (r : HttpResponse) : Outcome HttpResponse :=
  if r.ok then .ok r else .exited 1 [.assertResponseDiagnostics]

/-- test-ebics.py lines 161-168, step 4: GET the transaction list through
assertResponse, then run the pre-payment count check
if len(resp.json().get(transactions list key)) != 0: fail(...). -/
def emptyHistoryCheck (getResp : HttpResponse) : Outcome Unit :=
  Outcome.bind (assertResponse getResp) fun r =>
    match pyLen (r.body.get ("transactions")) with
    | .error e => .raised e
    | .ok n => if n ≠ 0 then .exited 1 [.unexpectedTxCount] else .ok ()

/-- test-ebics.py lines 152-168: the fetch-transactions POST asserted
successful, then the pre-payment history check. -/
def historyPhasePre (fetchResp getResp : HttpResponse) : Outcome Unit :=
  Outcome.bind (assertResponse fetchResp) fun _ => emptyHistoryCheck getResp

/-- test-ebics.py lines 215-225, step 9: GET the transaction list through
assertResponse, check the count is exactly 1, print the success marker
and let the script end (the interpreter then exits with code 0). -/
def finalHistoryCheck (getResp : HttpResponse) : Outcome Unit :=
  Outcome.bind (assertResponse getResp) fun r =>
    match pyLen (r.body.get ("transactions")) with
    | .error e => .raised e
    | .ok n => if n ≠ 1 then .exited 1 [.unexpectedTxCountShouldBe1]
               else .exited 0 [.testPassed]

/-- test-ebics.py lines 207-225: the post-payment fetch-transactions POST
asserted successful, then the final history check. -/
def historyPhasePost (fetchResp getResp : HttpResponse) : Outcome Unit :=
  Outcome.bind (assertResponse fetchResp) fun _ => finalHistoryCheck getResp

/-- test-ebics.py lines 186-188: extract the prepared-payment uuid from
the payment-initiation response body and fail when it compares equal to
None; the value flows on to the GET and submit calls otherwise. -/
def extractPreparedPaymentUuid (respJson : Json) : Outcome (Option Json) :=
  let u := respJson.get ("uuid")
  if isPyNone u then .exited 1 [.uuidNotReceived] else .ok u

/-- How a readiness-polling loop ends: the probe succeeded and the loop
broke, or the attempt budget ran out and the exhaustion branch ran. For
startSandbox that branch (util.py line 65) reads the name nexus, which is
bound nowhere in that function, so it raises NameError before printing
anything; for startNexus (lines 112-114) it terminates the child inline,
prints the timeout message and exits 77. -/
inductive PollEnd where
  | ready
  | raisedNameError (missing : String)
  | exited (code : Nat) (printed : List Msg)
deriving DecidableEq

/-- What a finished polling loop did: how many probes it issued, how many
seconds it spent sleeping, and how it ended. -/
structure PollTrace where
  probes : Nat
  sleptSeconds : Nat
  outcome : PollEnd
deriving DecidableEq

/-- util.py lines 61-72 and 106-116, the common loop shape: for i in
range(budget): probe; on failure, run the exhaustion branch when i is the
last index, otherwise sleep the interval and continue; on success break.
Arguments after the exhaustion branch: the next index i, the remaining
attempts, and the seconds slept so far. -/
def pollGo (probe : Nat → Bool) (interval : Nat) (exhaust : PollEnd) :
    Nat → Nat → Nat → PollTrace
  | i, 0, slept => ⟨i, slept, .ready⟩
  | i, r + 1, slept =>
    if probe i then ⟨i + 1, slept, .ready⟩
    else if r = 0 then ⟨i + 1, slept, exhaust⟩
    else pollGo probe interval exhaust (i + 1) r (slept + interval)

/-- startSandbox readiness polling, util.py lines 61-72: 10 attempts,
2-second sleeps, and the NameError-raising exhaustion branch. -/
def sandboxPoll (probe : Nat → Bool) : PollTrace :=
  pollGo probe 2 (.raisedNameError ("nexus")) 0 10 0

/-- startNexus readiness polling, util.py lines 106-116: 80 attempts,
1-second sleeps; exhaustion prints the timeout message and exits 77 (the
inline terminate it also performs is modelled in runScript). -/
def nexusPoll (probe : Nat → Bool) : PollTrace :=
  pollGo probe 1 (.exited 77 [.nexusTimedOut]) 0 80 0

/-- The index of the first successful probe at or after i within the next
r attempts, if any. -/
def firstReadyBefore (probe : Nat → Bool) : Nat → Nat → Option Nat
  | _, 0 => none
  | i, r + 1 => if probe i then some i else firstReadyBefore probe (i + 1) r

/-- Reference description of a budgeted polling loop, written from the
claim: return at the first successful probe, having probed k + 1 times
and slept k intervals; with no success in the budget, probe exactly
budget times, sleep between attempts only, and run the exhaustion
branch. -/
def pollSpec (probe : Nat → Bool) (interval budget : Nat) (exhaust : PollEnd) : PollTrace :=
  match firstReadyBefore probe 0 budget with
  | some k => ⟨k + 1, interval * k, .ready⟩
  | none => ⟨budget, interval * (budget - 1), exhaust⟩

/-- Who performed an effective (alive to dead) termination of a child
process: the atexit-registered kill, or inline code in startNexus. -/
inductive TermSource where
  | hook
  | inlineCode
deriving DecidableEq

/-- A supervised child process: whether Popen ever launched it, whether it
is still running, and the effective terminations it received, in order. -/
structure ProcState where
  launched : Bool
  alive : Bool
  terminations : List TermSource
deriving DecidableEq

/-- A process that was never launched. -/
def ProcState.unstarted : ProcState := ⟨false, false, []⟩

/-- Popen: the child starts running. -/
def ProcState.launch (p : ProcState) : ProcState := ⟨true, true, p.terminations⟩

/-- Popen.terminate (as kill in util.py lines 42-46 calls it): delivers
SIGTERM to a running child and records who did it; a no-op on a child
that is already dead. -/
def ProcState.terminate (p : ProcState) (src : TermSource) : ProcState :=
  if p.alive then ⟨p.launched, false, p.terminations ++ [src]⟩ else p

/-- The two exit callbacks the supervisors register, util.py lines 59 and
105: atexit.register(lambda: kill(name, proc)). -/
inductive HookId where
  | killSandbox
  | killNexus
deriving DecidableEq

/-- The run-level state: the two children, the registered exit hooks in
registration order, the hooks that actually ran, and how many scenario
steps of test-ebics.py completed. -/
structure RunState where
  sandbox : ProcState
  nexus : ProcState
  hooks : List HookId
  hookRuns : List HookId
  stepsExecuted : Nat
deriving DecidableEq

/-- Running one registered hook: kill terminates (and waits for) the
named child. -/
def runHook (st : RunState) (h : HookId) : RunState :=
  match h with
  | .killSandbox =>
      { st with sandbox := st.sandbox.terminate .hook, hookRuns := st.hookRuns ++ [h] }
  | .killNexus =>
      { st with nexus := st.nexus.terminate .hook, hookRuns := st.hookRuns ++ [h] }

/-- atexit: on any interpreter exit (normal end of script, sys.exit or
exit, or an uncaught exception) the registered callbacks run once each,
in reverse registration order. -/
def runAtexit (st : RunState) : RunState := st.hooks.reverse.foldl runHook st

/-- How the interpreter process ends: with an exit code, or killed by an
uncaught exception (a traceback, exit code 1 from the shell's view, but
kept distinct because no script-level print or exit call happened). -/
inductive ExitKind where
  | code (n : Nat)
  | uncaught (e : PyErr)
deriving DecidableEq

/-- How the scenario part of test-ebics.py (everything after both
services are ready) can end: all steps complete (exit 0 after the success
marker), an assertion or count check fails after some steps (printed
diagnostic, exit with the given code), or an uncaught exception after
some steps. -/
inductive ScenarioEnd where
  | completed
  | failedExit (code : Nat) (afterSteps : Nat)
  | crashed (e : PyErr) (afterSteps : Nat)
deriving DecidableEq

/-- The number of scenario HTTP steps test-ebics.py performs when every
check passes (requests 0.a through the final transactions GET). -/
def scenarioStepCount : Nat := 17

/-- The whole run at the process-lifecycle level: startSandbox launches
the sandbox, registers its kill hook and polls; startNexus then launches
the nexus, registers its kill hook and polls (terminating the nexus
inline before exit 77 on its timeout branch, util.py line 112); then the
scenario runs. Every ending goes through the atexit callbacks. -/
def runScript (probeS probeN : Nat → Bool) (scen : ScenarioEnd) : RunState × ExitKind :=
  let st : RunState :=
    ⟨ProcState.unstarted.launch, ProcState.unstarted, [.killSandbox], [], 0⟩
  match (sandboxPoll probeS).outcome with
  | .raisedNameError nm => (runAtexit st, .uncaught (.nameError nm))
  | .exited c _ => (runAtexit st, .code c)
  | .ready =>
    let st : RunState :=
      { st with nexus := ProcState.unstarted.launch, hooks := st.hooks ++ [.killNexus] }
    match (nexusPoll probeN).outcome with
    | .exited c _ =>
        let st := { st with nexus := st.nexus.terminate .inlineCode }
        (runAtexit st, .code c)
    | .raisedNameError nm => (runAtexit st, .uncaught (.nameError nm))
    | .ready =>
      match scen with
      | .completed => (runAtexit { st with stepsExecuted := scenarioStepCount }, .code 0)
      | .failedExit c k => (runAtexit { st with stepsExecuted := k }, .code c)
      | .crashed e k => (runAtexit { st with stepsExecuted := k }, .uncaught e)

/-- Claim C1 (code bug): when the sandbox never becomes reachable, the
spec says the poller prints the buffered child output and a timeout
message and exits 77 with no scenario step executed; the code instead
reaches util.py line 65, reads the unbound name nexus, and dies with an
uncaught NameError before printing anything. No scenario step executes,
but the exit is a crash, not the environment-skip code 77. -/
theorem sandbox_timeout_raises_nameerror :
    (runScript (fun _ => false) (fun _ => false) ScenarioEnd.completed).2
        = ExitKind.uncaught (PyErr.nameError ("nexus")) ∧
    (runScript (fun _ => false) (fun _ => false) ScenarioEnd.completed).1.stepsExecuted = 0 ∧
    ExitKind.uncaught (PyErr.nameError ("nexus")) ≠ ExitKind.code 77 :=
  ⟨rfl, rfl, by decide⟩

/-- Claim C2 (code bug): CheckJsonField.check is supposed to apply each
nested check to the field value, but the loop body reads self.nested_check,
an attribute that does not exist, so any present field with a non-empty
nested list raises AttributeError on the first iteration. The absent-field
half behaves as specified: diagnostic naming the field, exit code 1. -/
theorem nested_check_attribute_error :
    CheckJsonField.check (.mk ("a") [.mk ("b") []]) (Json.obj [(("a"), Json.obj [])])
        = Outcome.raised (PyErr.attributeError ("nested_check")) ∧
    CheckJsonField.check (.mk ("a") []) (Json.obj [])
        = Outcome.exited 1 [Msg.missingField ("a")] :=
  ⟨rfl, rfl⟩

/-- Claim C3, counterexample: a payment-initiation response whose uuid
field is the empty string passes the gate at test-ebics.py lines 186-188
and the run proceeds to the GET and submit steps, refuting the claim that
an empty identifier is fatal. -/
theorem payment_uuid_empty_string_accepted :
    extractPreparedPaymentUuid (Json.obj [(("uuid"), Json.str (""))])
        = Outcome.ok (some (Json.str (""))) ∧
    (extractPreparedPaymentUuid (Json.obj [(("uuid"), Json.str (""))])).isFatal = false ∧
    ("" : String).length = 0 :=
  ⟨rfl, rfl, rfl⟩

/-- Claim C3, amended: after the payment-initiation POST succeeds, the
sequencer proceeds to the GET-and-submit steps exactly when the response
body holds a uuid key whose value is not None (missing key or JSON null);
a None uuid prints the diagnostic and exits 1 before submission, while
any other value, an empty string included, is accepted. -/
theorem payment_uuid_gate_null_only (respJson : Json) :
    (isPyNone (respJson.get ("uuid")) = true →
        extractPreparedPaymentUuid respJson = Outcome.exited 1 [Msg.uuidNotReceived]) ∧
    (isPyNone (respJson.get ("uuid")) = false →
        extractPreparedPaymentUuid respJson = Outcome.ok (respJson.get ("uuid"))) := by
  constructor <;> intro h <;> simp [extractPreparedPaymentUuid, h]

/-- Witness for claim C3: a response without the uuid key is fatal with
the printed message and exit code 1. -/
theorem payment_uuid_gate_null_only_witness :
    extractPreparedPaymentUuid (Json.obj []) = Outcome.exited 1 [Msg.uuidNotReceived] :=
  (payment_uuid_gate_null_only (Json.obj [])).1 rfl

/-- Claim C4: in the scenario request trace, every request to the
admin-authorized endpoint (gateway POST /users, per section 6 of the
spec) carries Authorization basic followed by base64 of admin:x, and
every request to a gateway user endpoint carries basic followed by base64
of person:y; the two encodings are the expected base64 strings. -/
theorem authorization_headers_match (uuid : String) :
    (scenarioRequests uuid).all (fun r =>
        (!isAdminEndpoint r || r.auth == some ("basic " ++ b64encode ("admin:x"))) &&
        (!isUserEndpoint r || r.auth == some ("basic " ++ b64encode ("person:y")))) = true ∧
    ADMIN_AUTHORIZATION_HEADER = "basic " ++ "YWRtaW46eA==" ∧
    USER_AUTHORIZATION_HEADER = "basic " ++ "cGVyc29uOnk=" :=
  ⟨rfl, rfl, rfl⟩

/-- Witness for claim C4 at a concrete prepared-payment uuid. -/
theorem authorization_headers_match_witness :
    (scenarioRequests ("3e21")).all (fun r =>
        (!isAdminEndpoint r || r.auth == some ("basic " ++ b64encode ("admin:x"))) &&
        (!isUserEndpoint r || r.auth == some ("basic " ++ b64encode ("person:y")))) = true ∧
    ADMIN_AUTHORIZATION_HEADER = "basic " ++ "YWRtaW46eA==" ∧
    USER_AUTHORIZATION_HEADER = "basic " ++ "cGVyc29uOnk=" :=
  authorization_headers_match ("3e21")

/-- Claim C5: with the fetch-transactions POST and the transactions GET
asserted successful and the response carrying a transactions list, the
pre-payment history phase returns normally exactly when the list length
is 0, and for every other count prints the diagnostic and exits 1. -/
theorem pre_payment_history_count_check (fetchResp getResp : HttpResponse) (txs : List Json)
    (hf : fetchResp.ok = true) (hg : getResp.ok = true)
    (ht : getResp.body.get ("transactions") = some (Json.arr txs)) :
    (txs.length = 0 → historyPhasePre fetchResp getResp = Outcome.ok ()) ∧
    (txs.length ≠ 0 →
        historyPhasePre fetchResp getResp = Outcome.exited 1 [Msg.unexpectedTxCount]) := by
  constructor <;> intro h <;>
    simp [historyPhasePre, emptyHistoryCheck, assertResponse, hf, hg, Outcome.bind, ht, pyLen, h]

/-- Witness for claim C5: the empty list passes, a one-element list is
fatal with the printed diagnostic and exit code 1. -/
theorem pre_payment_history_count_check_witness :
    historyPhasePre ⟨true, Json.null⟩ ⟨true, Json.obj [(("transactions"), Json.arr [])]⟩
        = Outcome.ok () ∧
    historyPhasePre ⟨true, Json.null⟩ ⟨true, Json.obj [(("transactions"), Json.arr [Json.null])]⟩
        = Outcome.exited 1 [Msg.unexpectedTxCount] :=
  ⟨(pre_payment_history_count_check ⟨true, Json.null⟩
      ⟨true, Json.obj [(("transactions"), Json.arr [])]⟩ [] rfl rfl rfl).1 rfl,
   (pre_payment_history_count_check ⟨true, Json.null⟩
      ⟨true, Json.obj [(("transactions"), Json.arr [Json.null])]⟩ [Json.null] rfl rfl rfl).2
      (by simp)⟩

/-- Claim C6: with the post-payment fetch POST and the transactions GET
asserted successful and the response carrying a transactions list, the
final history phase prints the success marker and ends the run with exit
code 0 exactly when the list length is 1, and for every other count
prints the diagnostic and exits 1. -/
theorem post_payment_history_count_check (fetchResp getResp : HttpResponse) (txs : List Json)
    (hf : fetchResp.ok = true) (hg : getResp.ok = true)
    (ht : getResp.body.get ("transactions") = some (Json.arr txs)) :
    (txs.length = 1 → historyPhasePost fetchResp getResp = Outcome.exited 0 [Msg.testPassed]) ∧
    (txs.length ≠ 1 →
        historyPhasePost fetchResp getResp = Outcome.exited 1 [Msg.unexpectedTxCountShouldBe1]) := by
  constructor <;> intro h <;>
    simp [historyPhasePost, finalHistoryCheck, assertResponse, hf, hg, Outcome.bind, ht, pyLen, h]

/-- Witness for claim C6: a one-element list ends the run with the
success marker and code 0, the empty list is fatal. -/
theorem post_payment_history_count_check_witness :
    historyPhasePost ⟨true, Json.null⟩ ⟨true, Json.obj [(("transactions"), Json.arr [Json.null])]⟩
        = Outcome.exited 0 [Msg.testPassed] ∧
    historyPhasePost ⟨true, Json.null⟩ ⟨true, Json.obj [(("transactions"), Json.arr [])]⟩
        = Outcome.exited 1 [Msg.unexpectedTxCountShouldBe1] :=
  ⟨(post_payment_history_count_check ⟨true, Json.null⟩
      ⟨true, Json.obj [(("transactions"), Json.arr [Json.null])]⟩ [Json.null] rfl rfl rfl).1 rfl,
   (post_payment_history_count_check ⟨true, Json.null⟩
      ⟨true, Json.obj [(("transactions"), Json.arr [])]⟩ [] rfl rfl rfl).2 (by simp)⟩

/-- Claim C10: when the GET-transactions response body has no
transactions key, resp.json().get gives None, len(None) raises TypeError,
and both count checks abort with the uncaught exception instead of the
printed count-mismatch diagnostic. -/
theorem transactions_field_absent_typeerror (getResp : HttpResponse)
    (hg : getResp.ok = true)
    (habsent : getResp.body.get ("transactions") = none) :
    emptyHistoryCheck getResp = Outcome.raised PyErr.typeError ∧
    finalHistoryCheck getResp = Outcome.raised PyErr.typeError := by
  constructor <;>
    simp [emptyHistoryCheck, finalHistoryCheck, assertResponse, hg, Outcome.bind, habsent, pyLen]

/-- Witness for claim C10 at a concrete empty-object response body. -/
theorem transactions_field_absent_typeerror_witness :
    emptyHistoryCheck ⟨true, Json.obj []⟩ = Outcome.raised PyErr.typeError ∧
    finalHistoryCheck ⟨true, Json.obj []⟩ = Outcome.raised PyErr.typeError :=
  transactions_field_absent_typeerror ⟨true, Json.obj []⟩ rfl rfl

/-- Claim C9: checkPort on a free port binds and releases the throwaway
socket and returns normally with the socket state unchanged, so a second
call reports free again; on a busy port it prints the diagnostic and the
exception class and exits 77 without retrying. -/
theorem checkPort_free_and_busy (st : NetState) (port : Nat) :
    (st.bound.contains port = false →
        checkPort st port = Outcome.ok st ∧ checkPortTwice st port = Outcome.ok st) ∧
    (st.bound.contains port = true →
        checkPort st port = Outcome.exited 77 [Msg.portUnavailable port, Msg.bindExcInfo]) := by
  constructor <;> intro h
  · have hm : port ∉ st.bound := by simpa using h
    have h1 : checkPort st port = Outcome.ok st := by
      simp [checkPort, bindSocket, closeSocket, hm]
    exact ⟨h1, by simp only [checkPortTwice, h1]⟩
  · have hm : port ∈ st.bound := by simpa using h
    simp [checkPort, bindSocket, hm]

/-- Witness for claim C9 on port 5000 with an empty and with an occupied
socket table. -/
theorem checkPort_free_and_busy_witness :
    (checkPort ⟨[]⟩ 5000 = Outcome.ok ⟨[]⟩ ∧ checkPortTwice ⟨[]⟩ 5000 = Outcome.ok ⟨[]⟩) ∧
    checkPort ⟨[5000]⟩ 5000 = Outcome.exited 77 [Msg.portUnavailable 5000, Msg.bindExcInfo] :=
  ⟨(checkPort_free_and_busy ⟨[]⟩ 5000).1 rfl, (checkPort_free_and_busy ⟨[5000]⟩ 5000).2 rfl⟩

/-- Characterization of firstReadyBefore when it finds an index: the
index is the first success within the window. -/
theorem firstReadyBefore_some (probe : Nat → Bool) :
    ∀ r i k, firstReadyBefore probe i r = some k →
      i ≤ k ∧ k < i + r ∧ probe k = true ∧ ∀ j, i ≤ j → j < k → probe j = false := by
  intro r
  induction r with
  | zero => intro i k h; simp [firstReadyBefore] at h
  | succ r ih =>
    intro i k h
    rw [firstReadyBefore] at h
    cases hp : probe i with
    | true =>
      rw [hp] at h
      simp at h
      subst h
      exact ⟨Nat.le_refl _, by omega, hp, fun j hj1 hj2 => absurd hj1 (by omega)⟩
    | false =>
      rw [hp] at h
      simp at h
      obtain ⟨h1, h2, h3, h4⟩ := ih (i + 1) k h
      refine ⟨by omega, by omega, h3, fun j hj1 hj2 => ?_⟩
      rcases Nat.eq_or_lt_of_le hj1 with he | hl
      · rw [← he]; exact hp
      · exact h4 j (by omega) hj2

/-- Characterization of firstReadyBefore when it finds nothing: every
probe in the window fails. -/
theorem firstReadyBefore_none (probe : Nat → Bool) :
    ∀ r i, firstReadyBefore probe i r = none →
      ∀ j, i ≤ j → j < i + r → probe j = false := by
  intro r
  induction r with
  | zero => intro i _ j hj1 hj2; omega
  | succ r ih =>
    intro i h j hj1 hj2
    rw [firstReadyBefore] at h
    cases hp : probe i with
    | true => rw [hp] at h; simp at h
    | false =>
      rw [hp] at h
      simp at h
      rcases Nat.eq_or_lt_of_le hj1 with he | hl
      · rw [← he]; exact hp
      · exact ih (i + 1) h j (by omega) (by omega)

/-- The loop of pollGo computes exactly the first-success description:
probes up to and including the first success, one interval slept per
failed non-final attempt, and the exhaustion branch after a full window
of failures. -/
theorem pollGo_eq (probe : Nat → Bool) (interval : Nat) (exhaust : PollEnd) :
    ∀ r i slept, 1 ≤ r →
      pollGo probe interval exhaust i r slept =
        (match firstReadyBefore probe i r with
         | some k => ⟨k + 1, slept + interval * (k - i), PollEnd.ready⟩
         | none => ⟨i + r, slept + interval * (r - 1), exhaust⟩) := by
  intro r
  induction r with
  | zero => intro i slept h; omega
  | succ r ih =>
    intro i slept _
    rw [pollGo, firstReadyBefore]
    cases hp : probe i with
    | true => simp
    | false =>
      simp only [Bool.false_eq_true, if_false]
      cases r with
      | zero => simp [firstReadyBefore]
      | succ r' =>
        simp only [Nat.succ_ne_zero, if_false]
        rw [ih (i + 1) (slept + interval) (by omega)]
        cases hk : firstReadyBefore probe (i + 1) (r' + 1) with
        | some k =>
          have hb := firstReadyBefore_some probe (r' + 1) (i + 1) k hk
          simp only
          have hki : k - i = (k - (i + 1)) + 1 := by omega
          rw [hki, Nat.mul_succ]
          congr 1
          ring
        | none =>
          simp only
          congr 1
          · omega
          · simp only [Nat.add_sub_cancel]
            rw [Nat.mul_succ]
            ring

/-- The sandbox readiness loop equals its first-success description with
budget 10 and interval 2. -/
theorem sandboxPoll_eq (probeS : Nat → Bool) :
    sandboxPoll probeS = pollSpec probeS 2 10 (PollEnd.raisedNameError ("nexus")) := by
  rw [sandboxPoll, pollGo_eq probeS 2 (PollEnd.raisedNameError ("nexus")) 10 0 0 (by omega),
    pollSpec]
  cases hk : firstReadyBefore probeS 0 10 <;> simp [hk]

/-- The nexus readiness loop equals its first-success description with
budget 80 and interval 1. -/
theorem nexusPoll_eq (probeN : Nat → Bool) :
    nexusPoll probeN = pollSpec probeN 1 80 (PollEnd.exited 77 [Msg.nexusTimedOut]) := by
  rw [nexusPoll, pollGo_eq probeN 1 (PollEnd.exited 77 [Msg.nexusTimedOut]) 80 0 0 (by omega),
    pollSpec]
  cases hk : firstReadyBefore probeN 0 80 <;> simp [hk]

/-- Claim C8: both readiness loops are bounded and always terminate: the
sandbox loop probes at most 10 times with 2-second sleeps and the nexus
loop at most 80 times with 1-second sleeps; each equals its first-success
description, returns right after the first successful probe, and when
every probe in the budget fails it runs the process-ending exhaustion
branch after exactly the budgeted number of attempts. -/
theorem poll_loops_bounded (probeS probeN : Nat → Bool) :
    sandboxPoll probeS = pollSpec probeS 2 10 (PollEnd.raisedNameError ("nexus")) ∧
    nexusPoll probeN = pollSpec probeN 1 80 (PollEnd.exited 77 [Msg.nexusTimedOut]) ∧
    (sandboxPoll probeS).probes ≤ 10 ∧ (nexusPoll probeN).probes ≤ 80 ∧
    ((sandboxPoll probeS).outcome = PollEnd.ready →
       ∃ k, k < 10 ∧ probeS k = true ∧ (sandboxPoll probeS).probes = k + 1 ∧
         (sandboxPoll probeS).sleptSeconds = 2 * k ∧ ∀ j, j < k → probeS j = false) ∧
    ((∀ i, i < 10 → probeS i = false) →
       sandboxPoll probeS = ⟨10, 18, PollEnd.raisedNameError ("nexus")⟩) ∧
    ((nexusPoll probeN).outcome = PollEnd.ready →
       ∃ k, k < 80 ∧ probeN k = true ∧ (nexusPoll probeN).probes = k + 1 ∧
         (nexusPoll probeN).sleptSeconds = 1 * k ∧ ∀ j, j < k → probeN j = false) ∧
    ((∀ i, i < 80 → probeN i = false) →
       nexusPoll probeN = ⟨80, 79, PollEnd.exited 77 [Msg.nexusTimedOut]⟩) := by
  have hS := sandboxPoll_eq probeS
  have hN := nexusPoll_eq probeN
  refine ⟨hS, hN, ?_, ?_, ?_, ?_, ?_, ?_⟩
  · rw [hS, pollSpec]
    cases hk : firstReadyBefore probeS 0 10 with
    | some k =>
      have := firstReadyBefore_some probeS 10 0 k hk
      simp
      omega
    | none => simp
  · rw [hN, pollSpec]
    cases hk : firstReadyBefore probeN 0 80 with
    | some k =>
      have := firstReadyBefore_some probeN 80 0 k hk
      simp
      omega
    | none => simp
  · rw [hS, pollSpec]
    cases hk : firstReadyBefore probeS 0 10 with
    | some k =>
      intro _
      obtain ⟨h1, h2, h3, h4⟩ := firstReadyBefore_some probeS 10 0 k hk
      exact ⟨k, by omega, h3, rfl, rfl, fun j hj => h4 j (by omega) hj⟩
    | none => intro h; simp at h
  · intro hall
    rw [hS, pollSpec]
    cases hk : firstReadyBefore probeS 0 10 with
    | some k =>
      obtain ⟨h1, h2, h3, h4⟩ := firstReadyBefore_some probeS 10 0 k hk
      rw [hall k (by omega)] at h3
      cases h3
    | none => rfl
  · rw [hN, pollSpec]
    cases hk : firstReadyBefore probeN 0 80 with
    | some k =>
      intro _
      obtain ⟨h1, h2, h3, h4⟩ := firstReadyBefore_some probeN 80 0 k hk
      exact ⟨k, by omega, h3, rfl, rfl, fun j hj => h4 j (by omega) hj⟩
    | none => intro h; simp at h
  · intro hall
    rw [hN, pollSpec]
    cases hk : firstReadyBefore probeN 0 80 with
    | some k =>
      obtain ⟨h1, h2, h3, h4⟩ := firstReadyBefore_some probeN 80 0 k hk
      rw [hall k (by omega)] at h3
      cases h3
    | none => rfl

/-- Witness for claim C8: with services that never answer, both loops end
in their exhaustion branch after exactly 10 and 80 probes. -/
theorem poll_loops_bounded_witness :
    sandboxPoll (fun _ => false) = ⟨10, 18, PollEnd.raisedNameError ("nexus")⟩ ∧
    nexusPoll (fun _ => false) = ⟨80, 79, PollEnd.exited 77 [Msg.nexusTimedOut]⟩ :=
  ⟨(poll_loops_bounded (fun _ => false) (fun _ => false)).2.2.2.2.2.1 (fun _ _ => rfl),
   (poll_loops_bounded (fun _ => false) (fun _ => false)).2.2.2.2.2.2.2 (fun _ _ => rfl)⟩

/-- The sandbox loop can only end ready or in the NameError branch. -/
theorem sandboxPoll_outcome (probeS : Nat → Bool) :
    (sandboxPoll probeS).outcome = PollEnd.ready ∨
    (sandboxPoll probeS).outcome = PollEnd.raisedNameError ("nexus") := by
  rw [sandboxPoll_eq, pollSpec]
  cases hk : firstReadyBefore probeS 0 10 <;> simp

/-- The nexus loop can only end ready or in the exit-77 branch. -/
theorem nexusPoll_outcome (probeN : Nat → Bool) :
    (nexusPoll probeN).outcome = PollEnd.ready ∨
    (nexusPoll probeN).outcome = PollEnd.exited 77 [Msg.nexusTimedOut] := by
  rw [nexusPoll_eq, pollSpec]
  cases hk : firstReadyBefore probeN 0 80 <;> simp

/-- Claim C7, counterexample: when the nexus never becomes ready, the
effective termination of the nexus child is the inline terminate in
startNexus, not the registered exit hook (which then runs as a no-op on
the dead process), refuting termination via the exit hook on every path. -/
theorem nexus_timeout_inline_termination :
    (runScript (fun _ => true) (fun _ => false) ScenarioEnd.completed).1.nexus.terminations
        = [TermSource.inlineCode] ∧
    (runScript (fun _ => true) (fun _ => false) ScenarioEnd.completed).1.hookRuns
        = [HookId.killNexus, HookId.killSandbox] ∧
    TermSource.inlineCode ≠ TermSource.hook :=
  ⟨rfl, rfl, by decide⟩

/-- Claim C7, amended: on every way the run terminates, each launched
child is effectively terminated exactly once and its registered exit hook
runs exactly once, with terminate idempotent on a dead process; the
sandbox is always terminated by its hook, and the nexus is terminated by
its hook on every path except the nexus readiness-timeout path, where the
inline terminate in startNexus kills it first and the hook call is the
idempotent no-op. -/
theorem teardown_exactly_once_amended (probeS probeN : Nat → Bool) (scen : ScenarioEnd) :
    ((runScript probeS probeN scen).1.sandbox.launched = true ∧
     (runScript probeS probeN scen).1.sandbox.alive = false ∧
     (runScript probeS probeN scen).1.sandbox.terminations = [TermSource.hook] ∧
     (runScript probeS probeN scen).1.hookRuns.count HookId.killSandbox = 1) ∧
    ((runScript probeS probeN scen).1.nexus.launched = true →
      (runScript probeS probeN scen).1.nexus.alive = false ∧
      (runScript probeS probeN scen).1.nexus.terminations.length = 1 ∧
      (runScript probeS probeN scen).1.hookRuns.count HookId.killNexus = 1 ∧
      ((nexusPoll probeN).outcome = PollEnd.ready →
         (runScript probeS probeN scen).1.nexus.terminations = [TermSource.hook]) ∧
      ((nexusPoll probeN).outcome ≠ PollEnd.ready →
         (runScript probeS probeN scen).1.nexus.terminations = [TermSource.inlineCode])) ∧
    (∀ (p : ProcState) (src : TermSource), p.alive = false → p.terminate src = p) := by
  have hidem : ∀ (p : ProcState) (src : TermSource), p.alive = false → p.terminate src = p := by
    intro p src h
    simp [ProcState.terminate, h]
  refine ⟨?_, ?_, hidem⟩ <;>
    rcases sandboxPoll_outcome probeS with hS | hS <;>
    rcases nexusPoll_outcome probeN with hN | hN <;>
    rcases scen with _ | ⟨c, k⟩ | ⟨e, k⟩ <;>
    simp only [runScript, hS, hN] <;>
    simp [runAtexit, runHook, ProcState.terminate, ProcState.launch, ProcState.unstarted, hN]

/-- Witness for claim C7 on the all-ready run: both children end up
terminated by their hooks. -/
theorem teardown_exactly_once_amended_witness :
    (runScript (fun _ => true) (fun _ => true) ScenarioEnd.completed).1.sandbox.terminations
        = [TermSource.hook] ∧
    (runScript (fun _ => true) (fun _ => true) ScenarioEnd.completed).1.nexus.terminations
        = [TermSource.hook] :=
  ⟨(teardown_exactly_once_amended (fun _ => true) (fun _ => true) ScenarioEnd.completed).1.2.2.1,
   ((teardown_exactly_once_amended (fun _ => true) (fun _ => true)
      ScenarioEnd.completed).2.1 rfl).2.2.2.1 rfl⟩
